import Mathlib

/-!
Verification of the tempo-estimation core of the Mesh beat-detection
script (`scripts/madmom_beats.py`), shallowly embedded over the rationals.

The script's core function `calculate_bpm_from_beats` takes an ordered
sequence of beat timestamps (seconds), computes inter-beat intervals
(`np.diff`), keeps only intervals strictly between 0.2 s and 2.0 s,
and returns `60.0 / median` of the kept intervals, with `0.0` as the
sentinel for "insufficient or inconclusive evidence".  The surrounding
`main` assembles either a success record (beats, bpm, fixed confidence
0.85, stdout, exit 0) or an error record (message, empty beats, bpm 0.0,
confidence 0.0, stderr, exit 1).
-/

namespace Mesh

/-- Inter-beat intervals, as computed by `np.diff(beats)`:
`intervals[i] = beats[i+1] - beats[i]`, a list of length `n - 1`. -/
def intervals (beats : List ℚ) : List ℚ :=
  List.zipWith (fun a b => a - b) beats.tail beats

/-- The band filter from
`intervals[(intervals > 0.2) & (intervals < 2.0)]`: keep an interval
exactly when it is strictly greater than 0.2 s and strictly less than
2.0 s. -/
def validInterval (x : ℚ) : Bool :=
  decide ((1 : ℚ) / 5 < x) && decide (x < 2)

/-- The filtered interval list `valid_intervals` of the script. -/
def validIntervals (beats : List ℚ) : List ℚ :=
  (intervals beats).filter validInterval

/-- Median of an already sorted list, following `np.median`: the middle
element for an odd count, the average of the two middle elements for an
even count. -/
def medianOfSorted (s : List ℚ) : ℚ :=
  if s.length % 2 = 1 then s.getD (s.length / 2) 0
  else (s.getD (s.length / 2 - 1) 0 + s.getD (s.length / 2) 0) / 2

/-- `np.median`: sort, then take the middle element (odd count) or the
average of the two middle elements (even count). -/
def median (l : List ℚ) : ℚ :=
  medianOfSorted (l.insertionSort (· ≤ ·))

/-- Embedding of `calculate_bpm_from_beats`: fewer than 2 timestamps
give 0.0; an empty filtered interval list gives 0.0; otherwise the
result is `60.0 / median(valid_intervals)`. -/
def calculate_bpm_from_beats (beats : List ℚ) : ℚ :=
  if beats.length < 2 then 0
  else if (validIntervals beats).length = 0 then 0
  else 60 / median (validIntervals beats)

/-- Result of the two external collaborators (activation model plus DBN
beat tracker) as seen by `main`'s `try` block: either a beat-timestamp
list, or a raised exception carrying its message `str(e)`. -/
inductive CollabResult where
  | ok (beats : List ℚ)
  | exn (msg : String)
deriving DecidableEq

/-- The JSON record assembled by `main`: `error` is absent on success
and carries `str(e)` on failure. -/
structure ResultRecord where
  error : Option String
  beats : List ℚ
  bpm : ℚ
  confidence : ℚ
deriving DecidableEq

/-- Which standard stream the record is printed to. -/
inductive OutChannel where
  | stdout
  | stderr
deriving DecidableEq

/-- Embedding of `main`'s result assembly: on success print
`{"beats": ..., "bpm": ..., "confidence": 0.85}` to stdout and exit 0;
on any exception print
`{"error": str(e), "beats": [], "bpm": 0.0, "confidence": 0.0}` to
stderr and exit 1. -/
def mainModel (collab : CollabResult) : ResultRecord × OutChannel × Nat :=
  match collab with
  | .ok beats =>
      (⟨none, beats, calculate_bpm_from_beats beats, 17 / 20⟩, .stdout, 0)
  | .exn msg =>
      (⟨some msg, [], 0, 0⟩, .stderr, 1)

/-! ### Helper lemmas -/

/-- Every member of the filtered list lies strictly inside the band. -/
lemma mem_validIntervals {beats : List ℚ} {x : ℚ}
    (hx : x ∈ validIntervals beats) : (1 : ℚ) / 5 < x ∧ x < 2 := by
  have h := List.mem_filter.mp hx
  simpa [validInterval] using h.2

/-- A strict lower bound on every element of a nonempty list is a strict
lower bound on its sorted-list median. -/
lemma lt_medianOfSorted {a : ℚ} {s : List ℚ} (hne : s ≠ [])
    (h : ∀ x ∈ s, a < x) : a < medianOfSorted s := by
  have hlen : 0 < s.length := List.length_pos.mpr hne
  have hmid : s.length / 2 < s.length := Nat.div_lt_self hlen one_lt_two
  have hmid' : s.length / 2 - 1 < s.length :=
    lt_of_le_of_lt (Nat.sub_le _ _) hmid
  have h1 : a < s.getD (s.length / 2) 0 := by
    rw [List.getD_eq_getElem s 0 hmid]
    exact h _ (List.getElem_mem hmid)
  have h2 : a < s.getD (s.length / 2 - 1) 0 := by
    rw [List.getD_eq_getElem s 0 hmid']
    exact h _ (List.getElem_mem hmid')
  unfold medianOfSorted
  split
  · exact h1
  · linarith

/-- A strict upper bound on every element of a nonempty list is a strict
upper bound on its sorted-list median. -/
lemma medianOfSorted_lt {b : ℚ} {s : List ℚ} (hne : s ≠ [])
    (h : ∀ x ∈ s, x < b) : medianOfSorted s < b := by
  have hlen : 0 < s.length := List.length_pos.mpr hne
  have hmid : s.length / 2 < s.length := Nat.div_lt_self hlen one_lt_two
  have hmid' : s.length / 2 - 1 < s.length :=
    lt_of_le_of_lt (Nat.sub_le _ _) hmid
  have h1 : s.getD (s.length / 2) 0 < b := by
    rw [List.getD_eq_getElem s 0 hmid]
    exact h _ (List.getElem_mem hmid)
  have h2 : s.getD (s.length / 2 - 1) 0 < b := by
    rw [List.getD_eq_getElem s 0 hmid']
    exact h _ (List.getElem_mem hmid')
  unfold medianOfSorted
  split
  · exact h1
  · linarith

/-- A strict lower bound on every element of a nonempty list is a strict
lower bound on its median. -/
lemma lt_median {a : ℚ} {l : List ℚ} (hne : l ≠ [])
    (h : ∀ x ∈ l, a < x) : a < median l := by
  have hperm := List.perm_insertionSort (· ≤ ·) l
  refine lt_medianOfSorted ?_ ?_
  · intro hnil
    exact hne (List.eq_nil_of_length_eq_zero (by
      have := hperm.length_eq
      simp [hnil] at this
      omega))
  · intro x hx
    exact h x (hperm.subset hx)

/-- A strict upper bound on every element of a nonempty list is a strict
upper bound on its median. -/
lemma median_lt {b : ℚ} {l : List ℚ} (hne : l ≠ [])
    (h : ∀ x ∈ l, x < b) : median l < b := by
  have hperm := List.perm_insertionSort (· ≤ ·) l
  refine medianOfSorted_lt ?_ ?_
  · intro hnil
    exact hne (List.eq_nil_of_length_eq_zero (by
      have := hperm.length_eq
      simp [hnil] at this
      omega))
  · intro x hx
    exact h x (hperm.subset hx)

/-- Shifting both argument lists by the same constant leaves the
pointwise differences unchanged. -/
lemma zipWith_sub_map_add (c : ℚ) : ∀ xs ys : List ℚ,
    List.zipWith (fun a b => a - b) (xs.map (fun t => t + c))
        (ys.map (fun t => t + c)) =
    List.zipWith (fun a b => a - b) xs ys
  | [], ys => by simp
  | x :: xs, [] => by simp
  | x :: xs, y :: ys => by
    simp only [List.map_cons, List.zipWith_cons_cons,
      zipWith_sub_map_add c xs ys]
    congr 1
    ring

/-- Shifting every timestamp by the same constant leaves the inter-beat
intervals unchanged. -/
lemma intervals_map_add (beats : List ℚ) (c : ℚ) :
    intervals (beats.map (fun t => t + c)) = intervals beats := by
  have htail : (beats.map (fun t => t + c)).tail
      = beats.tail.map (fun t => t + c) := by
    cases beats <;> simp
  rw [intervals, intervals, htail, zipWith_sub_map_add]

/-! ### Claims -/

/-- C1: for every beat sequence with at least 2 entries whose filtered
intervals are nonempty, the estimator returns exactly `60.0` divided by
the median of the filtered intervals, where the median is read off any
sorted rearrangement of the filtered list: the middle element for an
odd count, the average of the two middle values for an even count. -/
theorem C1_bpm_is_sixty_over_median (beats : List ℚ)
    (h2 : 2 ≤ beats.length) (s : List ℚ)
    (hperm : s.Perm (validIntervals beats))
    (hsorted : s.Sorted (· ≤ ·))
    (hne : validIntervals beats ≠ []) :
    calculate_bpm_from_beats beats = 60 / medianOfSorted s := by
  have hs : s = (validIntervals beats).insertionSort (· ≤ ·) :=
    List.eq_of_perm_of_sorted
      (hperm.trans (List.perm_insertionSort _ _).symm) hsorted
      (List.sorted_insertionSort _ _)
  have hlen : ¬ (validIntervals beats).length = 0 := by
    simpa [List.length_eq_zero] using hne
  rw [calculate_bpm_from_beats, if_neg (by omega), if_neg hlen, median, hs]

/-- C1 witness: for the beats `[0, 1/2, 1]` the filtered intervals are
`[1/2, 1/2]`, whose sorted form is itself, and the estimator returns
`60 / medianOfSorted [1/2, 1/2]`. -/
theorem C1_bpm_is_sixty_over_median_witness :
    2 ≤ ([0, 1/2, 1] : List ℚ).length ∧
    ([1/2, 1/2] : List ℚ).Perm (validIntervals [0, 1/2, 1]) ∧
    ([1/2, 1/2] : List ℚ).Sorted (· ≤ ·) ∧
    validIntervals [0, 1/2, 1] ≠ [] ∧
    calculate_bpm_from_beats [0, 1/2, 1] = 60 / medianOfSorted [1/2, 1/2] := by
  have hv : validIntervals [0, 1/2, 1] = [1/2, 1/2] := by
    norm_num [validIntervals, intervals, validInterval]
  refine ⟨by norm_num, ?_, ?_, ?_, ?_⟩
  · rw [hv]
  · simp
  · rw [hv]; simp
  · exact C1_bpm_is_sixty_over_median [0, 1/2, 1] (by norm_num) [1/2, 1/2]
      (by rw [hv]) (by simp) (by rw [hv]; simp)

/-- C2: for every beat sequence of length strictly less than 2, the
estimator returns exactly 0.0. -/
theorem C2_short_input_gives_zero (beats : List ℚ)
    (h : beats.length < 2) : calculate_bpm_from_beats beats = 0 := by
  simp [calculate_bpm_from_beats, h]

/-- C2 witness: a singleton beat list gives 0.0. -/
theorem C2_short_input_gives_zero_witness :
    ([(1 : ℚ)] : List ℚ).length < 2 ∧
    calculate_bpm_from_beats [(1 : ℚ)] = 0 :=
  ⟨by decide, C2_short_input_gives_zero [(1 : ℚ)] (by decide)⟩

/-- C3: for every beat sequence of length at least 2 in which every
inter-beat interval lies outside the open band (0.2, 2.0), the
estimator returns exactly 0.0. -/
theorem C3_all_filtered_gives_zero (beats : List ℚ)
    (h2 : 2 ≤ beats.length)
    (hout : ∀ x ∈ intervals beats, ¬ ((1 : ℚ) / 5 < x ∧ x < 2)) :
    calculate_bpm_from_beats beats = 0 := by
  have hnil : validIntervals beats = [] := by
    rw [validIntervals, List.filter_eq_nil_iff]
    intro a ha
    simpa [validInterval] using hout a ha
  simp [calculate_bpm_from_beats, hnil]

/-- C3 witness: the beats `[0, 3]` produce the single interval 3, which
is outside the band, and the estimator returns 0.0. -/
theorem C3_all_filtered_gives_zero_witness :
    2 ≤ ([0, 3] : List ℚ).length ∧
    (∀ x ∈ intervals [0, 3], ¬ ((1 : ℚ) / 5 < x ∧ x < 2)) ∧
    calculate_bpm_from_beats [0, 3] = 0 := by
  have hint : intervals [0, 3] = [3] := by
    norm_num [intervals]
  refine ⟨by norm_num, ?_, ?_⟩
  · rw [hint]
    intro x hx
    rw [List.mem_singleton] at hx
    subst hx
    norm_num
  · refine C3_all_filtered_gives_zero [0, 3] (by norm_num) ?_
    rw [hint]
    intro x hx
    rw [List.mem_singleton] at hx
    subst hx
    norm_num

/-- C4: the band filter is strict on both ends: 0.2 s and 2.0 s are
excluded, while 0.2001 s and 1.9999 s are included, both at the level of
the filter predicate and end to end through the estimator. -/
theorem C4_strict_boundaries :
    validInterval (1/5) = false ∧
    validInterval 2 = false ∧
    validInterval (2001/10000) = true ∧
    validInterval (19999/10000) = true ∧
    calculate_bpm_from_beats [0, 1/5] = 0 ∧
    calculate_bpm_from_beats [0, 2] = 0 ∧
    calculate_bpm_from_beats [0, 2001/10000] = 60 / (2001/10000) ∧
    calculate_bpm_from_beats [0, 19999/10000] = 60 / (19999/10000) := by
  norm_num [intervals, validIntervals, validInterval, calculate_bpm_from_beats,
    median, medianOfSorted, List.insertionSort, List.orderedInsert]

/-- C5: for the input `[0.0, 0.5, 1.0, 3.5, 4.0]` the intervals are
`[0.5, 0.5, 2.5, 0.5]`, the 2.5 s interval is filtered out before the
median, and the result is exactly 120.0 BPM. -/
theorem C5_outlier_rejection :
    intervals [0, 1/2, 1, 7/2, 4] = [1/2, 1/2, 5/2, 1/2] ∧
    validIntervals [0, 1/2, 1, 7/2, 4] = [1/2, 1/2, 1/2] ∧
    calculate_bpm_from_beats [0, 1/2, 1, 7/2, 4] = 120 := by
  norm_num [intervals, validIntervals, validInterval, calculate_bpm_from_beats,
    median, medianOfSorted, List.insertionSort, List.orderedInsert]

/-- C6: for the input `[0.0, 0.4, 0.9, 1.4]` the intervals are
`[0.4, 0.5, 0.5]`, their median is 0.5, and the result is exactly
120.0 BPM. -/
theorem C6_median_example :
    intervals [0, 2/5, 9/10, 7/5] = [2/5, 1/2, 1/2] ∧
    median [2/5, 1/2, 1/2] = 1/2 ∧
    calculate_bpm_from_beats [0, 2/5, 9/10, 7/5] = 120 := by
  norm_num [intervals, validIntervals, validInterval, calculate_bpm_from_beats,
    median, medianOfSorted, List.insertionSort, List.orderedInsert]

/-- C7: the estimator is total: on every input it either returns 0.0 or
takes the division path, and on that path the median of the filtered
intervals is strictly greater than 0.2, so the divisor is nonzero. -/
theorem C7_total_no_division_by_zero (beats : List ℚ) :
    calculate_bpm_from_beats beats = 0 ∨
    (validIntervals beats ≠ [] ∧
     (1 : ℚ) / 5 < median (validIntervals beats) ∧
     calculate_bpm_from_beats beats
       = 60 / median (validIntervals beats)) := by
  by_cases h1 : beats.length < 2
  · left
    simp [calculate_bpm_from_beats, h1]
  by_cases hlen : (validIntervals beats).length = 0
  · left
    simp [calculate_bpm_from_beats, h1, hlen]
  · right
    have hne : validIntervals beats ≠ [] := by
      simpa [List.length_eq_zero] using hlen
    refine ⟨hne, ?_, by simp [calculate_bpm_from_beats, h1, hlen]⟩
    exact lt_median hne (fun x hx => (mem_validIntervals hx).1)

/-- C9: every output of the estimator is either exactly 0.0 or lies
strictly between 30.0 and 300.0 BPM. -/
theorem C9_output_range (beats : List ℚ) :
    calculate_bpm_from_beats beats = 0 ∨
    (30 < calculate_bpm_from_beats beats ∧
     calculate_bpm_from_beats beats < 300) := by
  by_cases h1 : beats.length < 2
  · left
    simp [calculate_bpm_from_beats, h1]
  by_cases hlen : (validIntervals beats).length = 0
  · left
    simp [calculate_bpm_from_beats, h1, hlen]
  · right
    have hne : validIntervals beats ≠ [] := by
      simpa [List.length_eq_zero] using hlen
    have hlo : (1 : ℚ) / 5 < median (validIntervals beats) :=
      lt_median hne (fun x hx => (mem_validIntervals hx).1)
    have hhi : median (validIntervals beats) < 2 :=
      median_lt hne (fun x hx => (mem_validIntervals hx).2)
    have hpos : 0 < median (validIntervals beats) := by linarith
    have heq : calculate_bpm_from_beats beats
        = 60 / median (validIntervals beats) := by
      simp [calculate_bpm_from_beats, h1, hlen]
    rw [heq]
    constructor
    · rw [lt_div_iff₀ hpos]
      linarith
    · rw [div_lt_iff₀ hpos]
      linarith

/-- C10: the estimator is translation-invariant: shifting every
timestamp by the same constant leaves the BPM result unchanged. -/
theorem C10_translation_invariant (beats : List ℚ) (c : ℚ) :
    calculate_bpm_from_beats (beats.map (fun t => t + c))
      = calculate_bpm_from_beats beats := by
  unfold calculate_bpm_from_beats validIntervals
  rw [intervals_map_add, List.length_map]

/-- C8 counterexample: when the collaborator exception carries the empty
message, the failure record's error field is the empty string, so the
failure shape does not always carry a non-empty message. -/
theorem C8_counterexample_empty_message :
    (mainModel (.exn "")).1.error = some "" ∧
    ¬ (∃ m, (mainModel (.exn "")).1.error = some m ∧ m ≠ "") := by
  constructor
  · rfl
  · rintro ⟨m, hm, hne⟩
    apply hne
    have : some m = some "" := by rw [← hm]; rfl
    exact Option.some.inj this

/-- C8 (amended): the program's outcomes are exactly two disjoint
shapes: on success the record {beats, bpm, confidence 0.85} goes to
stdout with exit code 0, and on any collaborator exception the record
{error: the exception's message verbatim (possibly empty), beats: [],
bpm: 0.0, confidence: 0.0} goes to stderr with exit code 1. -/
theorem C8_outcome_shapes (collab : CollabResult) :
    (∃ beats, collab = .ok beats ∧
      mainModel collab
        = (⟨none, beats, calculate_bpm_from_beats beats, 17/20⟩,
           .stdout, 0)) ∨
    (∃ msg, collab = .exn msg ∧
      mainModel collab = (⟨some msg, [], 0, 0⟩, .stderr, 1)) := by
  cases collab with
  | ok b => exact Or.inl ⟨b, rfl, rfl⟩
  | exn m => exact Or.inr ⟨m, rfl, rfl⟩

end Mesh
